import Mathlib

/-!
Shallow embedding of the boulder OCSP responder package: the `Source`
contract, the in-memory reference source with its bulk-file loader, and the
filtering decorator `filterSource` with its constructor `NewFilterSource`.

Bytes are modelled as `List Nat`, big integers (serial numbers) as `Nat`,
`crypto.Hash` values as `Nat` (with `crypto.SHA1 = 3` as in Go), and Go maps
as an explicit `GoMap` type that distinguishes the nil (never-allocated) map
from an allocated one, because writing to a nil Go map panics while reading
from it and ranging over it succeed.
-/

set_option autoImplicit false

namespace Responder

/-- A Go `error` value as used in this package: either the package's
`ErrNotFound` sentinel, an error produced by wrapping another error (the
result of formatting with a trailing wrapped error, preserving the chain for
kind tests), or a plain formatted error that wraps nothing.
The sentinel itself is `Modelled from the spec:` the package's `ErrNotFound`
declaration is not among the supplied sources; the spec describes it as the
distinguished not-found error kind preserved under wrapping. -/
inductive GoErr where
  | errNotFound : GoErr
  | wrapf : String → GoErr → GoErr
  | errorf : String → GoErr
deriving DecidableEq, Repr

/-- The Go test `errors.Is(e, ErrNotFound)`: walks the wrapping chain. -/
def GoErr.isNotFound : GoErr → Bool
  | .errNotFound => true
  | .wrapf _ inner => inner.isNotFound
  | .errorf _ => false

/-- The Go value `crypto.SHA1` has the numeric value 3 in `crypto.Hash`. -/
def cryptoSHA1 : Nat := 3

/-- A parsed OCSP request (`ocsp.Request` from golang.org/x/crypto/ocsp):
the fields this package reads. -/
structure OcspRequest where
  HashAlgorithm : Nat
  IssuerNameHash : List Nat
  IssuerKeyHash : List Nat
  SerialNumber : Nat
deriving DecidableEq, Repr

/-- The fields of a parsed `ocsp.Response` that this package reads. -/
structure OcspResponse where
  ResponderKeyHash : List Nat
  SerialNumber : Nat
deriving DecidableEq, Repr

/-- A `Response` is a wrapper around the parsed OCSP response that also
carries the raw bytes of the encoded response (Go struct embedding promotes
the parsed fields, modelled here with structure extension). -/
structure Response extends OcspResponse where
  Raw : List Nat
deriving DecidableEq, Repr

/-- The `Source` interface: the logic that chooses a response based on a
request. The Go context argument carries only cancellation and is not
observable in this pure embedding. -/
def Source : Type := OcspRequest → Except GoErr Response

/-- Association-list lookup, the first entry whose key matches: Go map read
on an allocated map (reads from nil maps are handled in `GoMap.find`). -/
def assocFind {κ α : Type} [DecidableEq κ] (m : List (κ × α)) (k : κ) : Option α :=
  match m with
  | [] => none
  | (k1, v) :: rest => if k1 = k then some v else assocFind rest k

/-- Association-list insert with overwrite: Go map assignment semantics on
an allocated map (at most one entry per key is kept). -/
def assocInsert {κ α : Type} [DecidableEq κ] (m : List (κ × α)) (k : κ) (v : α) :
    List (κ × α) :=
  match m with
  | [] => [(k, v)]
  | (k1, v1) :: rest => if k1 = k then (k, v) :: rest else (k1, v1) :: assocInsert rest k v

/-- A Go map with `Nat` keys: either the nil map (declared with `var` and
never allocated) or an allocated map. -/
inductive GoMap (α : Type) where
  | nilMap : GoMap α
  | alloc : List (Nat × α) → GoMap α
deriving DecidableEq, Repr

/-- Ranging over a Go map: the nil map yields no entries. (Go iteration
order is unspecified; the embedding fixes insertion order, which is a
deterministic refinement — the code under verification treats duplicate
key-hashes as misconfiguration with either choice acceptable.) -/
def GoMap.entries {α : Type} : GoMap α → List (Nat × α)
  | .nilMap => []
  | .alloc es => es

/-- Reading `m[k]` from a Go map: reads from the nil map succeed and report
absence. -/
def GoMap.find {α : Type} : GoMap α → Nat → Option α
  | .nilMap, _ => none
  | .alloc es, k => assocFind es k

/-- Writing `m[k] = v` to a Go map: writing to the nil map panics
(`none` models the runtime panic), writing to an allocated map overwrites. -/
def GoMap.insertGo {α : Type} : GoMap α → Nat → α → Option (GoMap α)
  | .nilMap, _, _ => none
  | .alloc es, k, v => some (.alloc (assocInsert es k v))

/-- The filter's `responderID`: the name-hash and key-hash of one
configured issuer. -/
structure responderID where
  nameHash : List Nat
  keyHash : List Nat
deriving DecidableEq, Repr

/-- The `filterSource` configuration state (the wrapped source, metrics counter
and logger are effectful collaborators: the wrapped source is passed to
`Response` explicitly, and counter increments are returned as a label list). -/
structure filterSource where
  hashAlgorithm : Nat
  issuers : GoMap responderID
  serialPrefixes : List String
deriving DecidableEq, Repr

/-- One configured issuer certificate, reduced to what `NewFilterSource`
reads from it: `KeyHash()`, `NameHash()` and `NameID()`. -/
structure IssuerCertificate where
  keyHash : List Nat
  nameHash : List Nat
  nameID : Nat
deriving DecidableEq, Repr

/-- Outcome of running `NewFilterSource`: a constructed source, a returned
error, or a runtime panic. -/
inductive ConstructResult where
  | ok : filterSource → ConstructResult
  | err : String → ConstructResult
  | goPanic : String → ConstructResult
deriving DecidableEq, Repr

/-- The population loop of `NewFilterSource`: writes each issuer's
responderID into the issuer map, propagating the panic of a write to a nil
map. -/
def populateIssuers : GoMap responderID → List IssuerCertificate →
    Except String (GoMap responderID)
  | m, [] => .ok m
  | m, issuerCert :: rest =>
    match m.insertGo issuerCert.nameID
        { keyHash := issuerCert.keyHash, nameHash := issuerCert.nameHash } with
    | none => .error "assignment to entry in nil map"
    | some m2 => populateIssuers m2 rest

/-- The constructor `NewFilterSource`: rejects an empty issuer list, then populates the
issuer map starting from the map declared with `var` (the nil map, never
allocated with make) and fixes the hash algorithm to SHA-1. -/
def NewFilterSource (issuerCerts : List IssuerCertificate)
    (serialPrefixes : List String) : ConstructResult :=
  if issuerCerts.length < 1 then
    .err "Filter must include at least 1 issuer cert"
  else
    match populateIssuers GoMap.nilMap issuerCerts with
    | .error p => .goPanic p
    | .ok m =>
      .ok { hashAlgorithm := cryptoSHA1, issuers := m, serialPrefixes := serialPrefixes }

/-- Modelled from the spec: `core.SerialToString` is not among the supplied
sources; the spec describes it as the canonical serial-to-string conversion
producing a hex string (the boulder convention: lowercase hex zero-padded to
36 characters). -/
def SerialToString (serial : Nat) : String :=
  let digits := Nat.toDigits 16 serial
  String.mk (List.replicate (36 - digits.length) '0' ++ digits)

/-- Go's `strings.HasPrefix`: byte-prefix test, which on valid UTF-8 strings
coincides with the character-list prefix test used here (which, unlike
`String.startsWith`, evaluates inside the kernel). -/
def startsWithGo (s pre : String) : Bool :=
  pre.data.isPrefixOf s.data

/-- The issuer-search loop of `checkRequest`: the first configured issuer
whose key-hash equals the request's issuer key-hash byte for byte. -/
def findIssuer (entries : List (Nat × responderID)) (kh : List Nat) : Option Nat :=
  match entries with
  | [] => none
  | (nameID, rid) :: rest => if rid.keyHash = kh then some nameID else findIssuer rest kh

/-- The method `filterSource.checkRequest`: rejects (wrapping `ErrNotFound`) a request
whose hash algorithm differs from the configured one, then — when a
non-empty prefix list is configured — a request whose serial string starts
with none of the configured prefixes, then a request whose issuer key-hash
matches no configured issuer; on success returns the matched issuer's
name ID. -/
def filterSource.checkRequest (src : filterSource) (req : OcspRequest) :
    Except GoErr Nat :=
  if req.HashAlgorithm ≠ src.hashAlgorithm then
    .error (GoErr.wrapf "unsupported issuer key/name hash algorithm" GoErr.errNotFound)
  else if 0 < src.serialPrefixes.length
      ∧ (src.serialPrefixes.any fun p =>
          startsWithGo (SerialToString req.SerialNumber) p) = false then
    .error (GoErr.wrapf "unrecognized serial prefix" GoErr.errNotFound)
  else
    match findIssuer (GoMap.entries src.issuers) req.IssuerKeyHash with
    | some nameID => .ok nameID
    | none => .error (GoErr.wrapf "unrecognized issuer key hash" GoErr.errNotFound)

/-- The method `filterSource.checkResponse`: re-looks-up the issuer identified by the
request and rejects (with a plain, un-wrapped error) a response whose
responder key-hash differs from that issuer's configured key-hash.
`none` is the Go `nil` error. -/
def filterSource.checkResponse (src : filterSource) (iss : Nat) (resp : Response) :
    Option GoErr :=
  match src.issuers.find iss with
  | none => some (GoErr.errorf "unrecognized issuer name ID")
  | some rid =>
    if rid.keyHash ≠ resp.ResponderKeyHash then
      some (GoErr.errorf "responder does not match requested issuer")
    else
      none

/-- The method `filterSource.Response`: the three-phase pipeline. The wrapped source is
the struct's `wrapped` field, passed explicitly here; the second component
of the result is the sequence of outcome-counter labels incremented during
the call. -/
def filterSource.Response (src : filterSource) (wrapped : Source) (req : OcspRequest) :
    Except GoErr Response × List String :=
  match src.checkRequest req with
  | .error e => (.error e, ["request_filtered"])
  | .ok iss =>
    match wrapped req with
    | .error e => (.error e, ["wrapped_error"])
    | .ok resp =>
      match src.checkResponse iss resp with
      | some e => (.error e, ["response_filtered"])
      | none => (.ok resp, ["success"])

/-- An `InMemorySource` is a map from decimal serial-number string to
Response (the Go map is always allocated here, so a plain association list
with overwrite-insert models it). -/
structure InMemorySource where
  responses : List (String × Response)
deriving DecidableEq, Repr

/-- The constructor `NewMemorySource` wraps an initialized response map. -/
def NewMemorySource (responses : List (String × Response)) : InMemorySource :=
  { responses := responses }

/-- The characters matched by the RE2 character class backslash-s used by
the loader's splitting regexp: tab, newline, form feed, carriage return and
space. -/
def isSpaceRE2 (c : Char) : Bool :=
  c = '\t' ∨ c = '\n' ∨ c = '\x0c' ∨ c = '\r' ∨ c = ' '

/-- Splitting a character list around every whitespace character, keeping
the empty pieces between adjacent separators and at both ends — the
semantics of Go's regexp Split with limit -1 on a single-character
pattern. -/
def splitAuxWS : List Char → List (List Char)
  | [] => [[]]
  | c :: rest =>
    if isSpaceRE2 c then [] :: splitAuxWS rest
    else
      match splitAuxWS rest with
      | [] => [[c]]
      | t :: ts => (c :: t) :: ts

/-- The loader's split of the file contents on the whitespace regexp. -/
def splitWS (s : String) : List String :=
  (splitAuxWS s.data).map String.mk

/-- Events observable on the loader's logger: the two error lines for a
token that fails base64 decoding or OCSP parsing, and the final count
line. -/
inductive LogEvent where
  | b64DecodeErr : String → LogEvent
  | ocspDecodeErr : String → LogEvent
  | readCount : Nat → LogEvent
deriving DecidableEq, Repr

/-- The token loop of `NewMemorySourceFromFile`: skips empty tokens, logs
and skips tokens that fail base64 decoding or OCSP parsing, and stores each
successfully parsed response under its serial number's decimal string,
overwriting any earlier entry for the same serial. The base64 decoder and
the OCSP parser are external library collaborators passed as functions. -/
def loadResponses (decode : String → Except String (List Nat))
    (parse : List Nat → Except String OcspResponse)
    (responses : List (String × Response)) (logs : List LogEvent) :
    List String → List (String × Response) × List LogEvent
  | [] => (responses, logs ++ [LogEvent.readCount responses.length])
  | b64 :: rest =>
    if b64 = "" then loadResponses decode parse responses logs rest
    else
      match decode b64 with
      | .error _ =>
        loadResponses decode parse responses (logs ++ [LogEvent.b64DecodeErr b64]) rest
      | .ok der =>
        match parse der with
        | .error _ =>
          loadResponses decode parse responses (logs ++ [LogEvent.ocspDecodeErr b64]) rest
        | .ok response =>
          loadResponses decode parse
            (assocInsert responses (toString response.SerialNumber)
              { toOcspResponse := response, Raw := der })
            logs rest

/-- The loader `NewMemorySourceFromFile` after the file has been read: splits the file
contents on whitespace and loads every token, reporting the final count. -/
def NewMemorySourceFromFile (decode : String → Except String (List Nat))
    (parse : List Nat → Except String OcspResponse)
    (fileContents : String) : InMemorySource × List LogEvent :=
  let loaded := loadResponses decode parse [] [] (splitWS fileContents)
  (NewMemorySource loaded.1, loaded.2)

/-- The method `InMemorySource.Response`: a lookup purely by the request's serial
number in decimal string form; absence is the `ErrNotFound` sentinel. -/
def InMemorySource.Response (src : InMemorySource) (request : OcspRequest) :
    Except GoErr Response :=
  match assocFind src.responses (toString request.SerialNumber) with
  | none => .error GoErr.errNotFound
  | some response => .ok response

/-- The sequence of (key, response) pairs the loader successfully decodes
and parses, in file order: each surviving token's serial-number decimal
string paired with its wrapped response, skipping empty and failing tokens
exactly as the loader's loop does. Its relation to `loadResponses` is proved
below (the loader's final map is the overwrite-fold of this sequence). -/
def parsedEntries (decode : String → Except String (List Nat))
    (parse : List Nat → Except String OcspResponse) :
    List String → List (String × Response)
  | [] => []
  | b64 :: rest =>
    if b64 = "" then parsedEntries decode parse rest
    else
      match decode b64 with
      | .error _ => parsedEntries decode parse rest
      | .ok der =>
        match parse der with
        | .error _ => parsedEntries decode parse rest
        | .ok response =>
          (toString response.SerialNumber, { toOcspResponse := response, Raw := der })
            :: parsedEntries decode parse rest

/-- The number of entries of an association list bearing a given key. -/
def countKey {κ α : Type} [DecidableEq κ] (m : List (κ × α)) (k : κ) : Nat :=
  match m with
  | [] => 0
  | (k1, _) :: rest => if k1 = k then countKey rest k + 1 else countKey rest k

/-- Concrete base64-decoder collaborator for loader witnesses: two known
good tokens, everything else fails. -/
def decodeW : String → Except String (List Nat) :=
  fun s =>
    if s = "AAAA" then .ok [1]
    else if s = "BBBB" then .ok [2]
    else .error "illegal base64 data"

/-- Concrete OCSP-parser collaborator for loader witnesses: two responses
with distinct serial numbers. -/
def parseW : List Nat → Except String OcspResponse :=
  fun d =>
    if d = [1] then .ok { ResponderKeyHash := [7, 7], SerialNumber := 12 }
    else if d = [2] then .ok { ResponderKeyHash := [8, 8], SerialNumber := 34 }
    else .error "malformed response"

/-- Concrete OCSP-parser collaborator whose two responses share one serial
number. -/
def parseDupW : List Nat → Except String OcspResponse :=
  fun d =>
    if d = [1] then .ok { ResponderKeyHash := [7, 7], SerialNumber := 12 }
    else .ok { ResponderKeyHash := [8, 8], SerialNumber := 12 }

/-- Concrete in-memory source fixture holding one response under serial
12. -/
def srcM : InMemorySource :=
  { responses := [("12", { ResponderKeyHash := [7, 7], SerialNumber := 12, Raw := [1] })] }

/-- Concrete request for serial 12 with arbitrary issuer fields. -/
def reqSer12 : OcspRequest :=
  { HashAlgorithm := cryptoSHA1, IssuerNameHash := [3], IssuerKeyHash := [4]
    SerialNumber := 12 }

/-- Concrete filter fixture: two issuers with distinct key-hashes, no serial
prefix restriction. -/
def srcA : filterSource :=
  { hashAlgorithm := cryptoSHA1
    issuers := GoMap.alloc
      [(1, { nameHash := [10], keyHash := [7, 7] }),
       (2, { nameHash := [11], keyHash := [8, 8] })]
    serialPrefixes := [] }

/-- Concrete filter fixture with a serial-prefix restriction. -/
def srcP : filterSource :=
  { hashAlgorithm := cryptoSHA1
    issuers := GoMap.alloc [(1, { nameHash := [10], keyHash := [7, 7] })]
    serialPrefixes := ["ff"] }

/-- Concrete admissible request naming issuer 1 of `srcA`. -/
def reqA : OcspRequest :=
  { HashAlgorithm := cryptoSHA1, IssuerNameHash := [10], IssuerKeyHash := [7, 7]
    SerialNumber := 5 }

/-- Concrete request with an unsupported hash algorithm. -/
def reqBadHash : OcspRequest :=
  { HashAlgorithm := 5, IssuerNameHash := [10], IssuerKeyHash := [7, 7]
    SerialNumber := 5 }

/-- Concrete wrapped source returning a response whose responder key-hash
matches no issuer of `srcA`. -/
def wrappedBad : Source :=
  fun _ => .ok { ResponderKeyHash := [9, 9], SerialNumber := 5, Raw := [1, 2, 3] }

/-- Concrete wrapped source returning a response whose responder key-hash is
issuer 1's key-hash. -/
def wrappedGood : Source :=
  fun _ => .ok { ResponderKeyHash := [7, 7], SerialNumber := 5, Raw := [1, 2, 3] }

end Responder

namespace Responder

/-- Every error produced by `checkRequest` wraps the not-found sentinel. -/
theorem checkRequest_error_isNotFound (src : filterSource) (req : OcspRequest)
    (e : GoErr) (h : src.checkRequest req = .error e) : e.isNotFound = true := by
  unfold filterSource.checkRequest at h
  split at h
  · exact (Except.error.inj h) ▸ rfl
  · split at h
    · exact (Except.error.inj h) ▸ rfl
    · split at h
      · exact absurd h (by simp)
      · exact (Except.error.inj h) ▸ rfl

/-- When `checkRequest` rejects, `Response` returns that rejection with one
increment of the request-filtered counter, for any wrapped source. -/
theorem Response_of_checkRequest_error (src : filterSource) (req : OcspRequest)
    (e : GoErr) (h : src.checkRequest req = .error e) (wrapped : Source) :
    src.Response wrapped req = (.error e, ["request_filtered"]) := by
  unfold filterSource.Response
  rw [h]

/-- A successful `findIssuer` result names a configured issuer whose
key-hash equals the searched key-hash. -/
theorem findIssuer_some_mem (entries : List (Nat × responderID)) (kh : List Nat)
    (nameID : Nat) (h : findIssuer entries kh = some nameID) :
    ∃ rid, (nameID, rid) ∈ entries ∧ rid.keyHash = kh := by
  induction entries with
  | nil => exact absurd h (by simp [findIssuer])
  | cons hd tl ih =>
    rw [findIssuer] at h
    split at h
    · rename_i heq
      refine ⟨hd.2, ?_, heq⟩
      rw [← Option.some.inj h]
      exact List.mem_cons_self _ _
    · obtain ⟨rid, hmem, hkh⟩ := ih h
      exact ⟨rid, List.mem_cons_of_mem _ hmem, hkh⟩

/-- When no configured issuer's key-hash equals the searched one,
`findIssuer` finds nothing. -/
theorem findIssuer_none (entries : List (Nat × responderID)) (kh : List Nat)
    (h : ∀ rid ∈ entries.map Prod.snd, rid.keyHash ≠ kh) :
    findIssuer entries kh = none := by
  induction entries with
  | nil => rfl
  | cons hd tl ih =>
    rw [findIssuer]
    rw [if_neg (h hd.2 (by simp))]
    exact ih (fun rid hmem => h rid (by simp_all))

/-- A successful `checkRequest` comes from a successful issuer search. -/
theorem checkRequest_ok_findIssuer (src : filterSource) (req : OcspRequest)
    (iss : Nat) (h : src.checkRequest req = .ok iss) :
    findIssuer (GoMap.entries src.issuers) req.IssuerKeyHash = some iss := by
  unfold filterSource.checkRequest at h
  split at h
  · exact absurd h (by simp)
  · split at h
    · exact absurd h (by simp)
    · split at h
      · rename_i heq
        rw [heq, Except.ok.inj h]
      · exact absurd h (by simp)

/-- Claim C1: constructing with zero issuer certificates fails
deterministically (this half holds), but constructing with one issuer
certificate does not succeed: the issuer map is declared with `var` and
never allocated, so the first write to it panics with the Go runtime's
nil-map assignment panic instead of producing a populated source. -/
theorem newFilterSource_nil_map_construction :
    NewFilterSource [] ["00"] = .err "Filter must include at least 1 issuer cert"
    ∧ NewFilterSource [{ keyHash := [1], nameHash := [2], nameID := 5 }] []
        = .goPanic "assignment to entry in nil map" := by
  constructor
  · rfl
  · rfl

/-- Claim C2: for every request that passes `checkRequest` admission and
every wrapped-source result whose response's responder key-hash is not
byte-for-byte equal to the matched issuer's configured key-hash,
`filterSource.Response` returns a non-nil error and a nil response (the
`Except.error` case carries no response), incrementing only the
response-filtered counter — the wrapped source's response is never released
to the caller. -/
theorem filter_response_mismatch_rejected (src : filterSource) (wrapped : Source)
    (req : OcspRequest) (iss : Nat) (rid : responderID) (resp : Response)
    (hreq : src.checkRequest req = .ok iss)
    (hw : wrapped req = .ok resp)
    (hfind : src.issuers.find iss = some rid)
    (hne : rid.keyHash ≠ resp.ResponderKeyHash) :
    src.Response wrapped req
      = (.error (GoErr.errorf "responder does not match requested issuer"),
         ["response_filtered"]) := by
  simp [filterSource.Response, hreq, hw, filterSource.checkResponse, hfind, hne]

/-- Witness for C2: the two-issuer fixture, an admissible request for
issuer 1, and a wrapped response with a foreign responder key-hash. -/
theorem filter_response_mismatch_rejected_witness :
    srcA.Response wrappedBad reqA
      = (.error (GoErr.errorf "responder does not match requested issuer"),
         ["response_filtered"]) :=
  filter_response_mismatch_rejected srcA wrappedBad reqA 1
    { nameHash := [10], keyHash := [7, 7] }
    { ResponderKeyHash := [9, 9], SerialNumber := 5, Raw := [1, 2, 3] }
    rfl rfl rfl (by decide)

/-- Claim C3: for every request that passes admission and every
wrapped-source response whose responder key-hash byte-for-byte equals the
matched issuer's configured key-hash, `filterSource.Response` returns
exactly that response value (hence a byte-identical Raw encoding) with no
error, and the call increments exactly the success counter, once. -/
theorem filter_response_match_released (src : filterSource) (wrapped : Source)
    (req : OcspRequest) (iss : Nat) (rid : responderID) (resp : Response)
    (hreq : src.checkRequest req = .ok iss)
    (hw : wrapped req = .ok resp)
    (hfind : src.issuers.find iss = some rid)
    (heq : rid.keyHash = resp.ResponderKeyHash) :
    src.Response wrapped req = (.ok resp, ["success"]) := by
  simp [filterSource.Response, hreq, hw, filterSource.checkResponse, hfind, heq]

/-- Witness for C3: the two-issuer fixture, an admissible request for
issuer 1, and a wrapped response carrying issuer 1's key-hash. -/
theorem filter_response_match_released_witness :
    srcA.Response wrappedGood reqA
      = (.ok { ResponderKeyHash := [7, 7], SerialNumber := 5, Raw := [1, 2, 3] },
         ["success"]) :=
  filter_response_match_released srcA wrappedGood reqA 1
    { nameHash := [10], keyHash := [7, 7] }
    { ResponderKeyHash := [7, 7], SerialNumber := 5, Raw := [1, 2, 3] }
    rfl rfl rfl rfl

/-- Claim C4: for every request whose hash algorithm differs from the
configured one, `filterSource.Response` returns an error wrapping the
not-found sentinel and never invokes the wrapped source (the outcome is the
same for every wrapped source, determined before delegation). -/
theorem filter_hash_algorithm_rejected (src : filterSource) (req : OcspRequest)
    (h : req.HashAlgorithm ≠ src.hashAlgorithm) :
    (GoErr.wrapf "unsupported issuer key/name hash algorithm" GoErr.errNotFound).isNotFound
        = true
    ∧ ∀ wrapped : Source,
        src.Response wrapped req
          = (.error (GoErr.wrapf "unsupported issuer key/name hash algorithm"
                GoErr.errNotFound),
             ["request_filtered"]) := by
  refine ⟨rfl, fun wrapped => Response_of_checkRequest_error src req _ ?_ wrapped⟩
  unfold filterSource.checkRequest
  rw [if_pos h]

/-- Witness for C4: a request with hash algorithm 5 against the SHA-1
configured fixture. -/
theorem filter_hash_algorithm_rejected_witness :
    (GoErr.wrapf "unsupported issuer key/name hash algorithm" GoErr.errNotFound).isNotFound
        = true
    ∧ ∀ wrapped : Source,
        srcA.Response wrapped reqBadHash
          = (.error (GoErr.wrapf "unsupported issuer key/name hash algorithm"
                GoErr.errNotFound),
             ["request_filtered"]) :=
  filter_hash_algorithm_rejected srcA reqBadHash (by decide)

/-- Claim C5: when the configured serial-prefix list is non-empty, a request
whose canonical serial string starts with none of the configured prefixes is
answered with a not-found-kind error without invoking the wrapped source;
when the prefix list is empty, `checkRequest` never produces the
serial-prefix rejection. -/
theorem filter_serial_prefix_policy (src : filterSource) (req : OcspRequest) :
    (src.serialPrefixes ≠ [] →
      (∀ p ∈ src.serialPrefixes,
        startsWithGo (SerialToString req.SerialNumber) p = false) →
      ∃ e, e.isNotFound = true ∧ ∀ wrapped : Source,
        src.Response wrapped req = (.error e, ["request_filtered"]))
    ∧ (src.serialPrefixes = [] →
      src.checkRequest req
        ≠ .error (GoErr.wrapf "unrecognized serial prefix" GoErr.errNotFound)) := by
  constructor
  · intro hne hnone
    by_cases hh : req.HashAlgorithm ≠ src.hashAlgorithm
    · refine ⟨GoErr.wrapf "unsupported issuer key/name hash algorithm" GoErr.errNotFound,
        rfl, fun wrapped => Response_of_checkRequest_error src req _ ?_ wrapped⟩
      unfold filterSource.checkRequest
      rw [if_pos hh]
    · refine ⟨GoErr.wrapf "unrecognized serial prefix" GoErr.errNotFound, rfl,
        fun wrapped => Response_of_checkRequest_error src req _ ?_ wrapped⟩
      unfold filterSource.checkRequest
      rw [if_neg hh, if_pos ?_]
      refine ⟨List.length_pos.mpr hne, ?_⟩
      rw [List.any_eq_false]
      intro p hp
      simp [hnone p hp]
  · intro hnil h
    unfold filterSource.checkRequest at h
    split at h
    · injection h with h1
      injection h1 with hs
      exact absurd hs (by decide)
    · rw [hnil] at h
      simp only [List.length_nil, List.any_nil] at h
      rw [if_neg (by simp)] at h
      split at h
      · exact absurd h (by simp)
      · injection h with h1
        injection h1 with hs
        exact absurd hs (by decide)

/-- Witness for C5: a configured prefix list of one entry ("ff") that the
concrete serial's canonical string (all leading zeroes) does not start
with. -/
theorem filter_serial_prefix_policy_witness :
    ∃ e, e.isNotFound = true ∧ ∀ wrapped : Source,
      srcP.Response wrapped reqA = (.error e, ["request_filtered"]) :=
  (filter_serial_prefix_policy srcP reqA).1 (by decide) (by decide)

/-- Claim C6: a request whose issuer key-hash equals no configured issuer's
key-hash is answered with a not-found-kind error without invoking the
wrapped source; when `checkRequest` succeeds, the returned name ID names a
configured issuer whose key-hash equals the request's, and exactly that
identifier's `checkResponse` verdict decides the final outcome of
`filterSource.Response`. -/
theorem filter_issuer_matching (src : filterSource) (req : OcspRequest) :
    ((∀ rid ∈ (GoMap.entries src.issuers).map Prod.snd,
        rid.keyHash ≠ req.IssuerKeyHash) →
      ∃ e, e.isNotFound = true ∧ ∀ wrapped : Source,
        src.Response wrapped req = (.error e, ["request_filtered"]))
    ∧ (∀ iss, src.checkRequest req = .ok iss →
        (∃ rid, (iss, rid) ∈ GoMap.entries src.issuers
          ∧ rid.keyHash = req.IssuerKeyHash)
        ∧ ∀ (wrapped : Source) (resp : Response), wrapped req = .ok resp →
            (src.checkResponse iss resp = none →
              src.Response wrapped req = (.ok resp, ["success"]))
            ∧ (∀ e, src.checkResponse iss resp = some e →
              src.Response wrapped req = (.error e, ["response_filtered"]))) := by
  constructor
  · intro h
    cases hcr : src.checkRequest req with
    | error e =>
      exact ⟨e, checkRequest_error_isNotFound src req e hcr,
        fun wrapped => Response_of_checkRequest_error src req e hcr wrapped⟩
    | ok iss =>
      have hfound := checkRequest_ok_findIssuer src req iss hcr
      rw [findIssuer_none _ _ h] at hfound
      exact absurd hfound (by simp)
  · intro iss hcr
    constructor
    · exact findIssuer_some_mem _ _ _ (checkRequest_ok_findIssuer src req iss hcr)
    · intro wrapped resp hw
      constructor
      · intro hnone
        simp [filterSource.Response, hcr, hw, hnone]
      · intro e hsome
        simp [filterSource.Response, hcr, hw, hsome]

/-- Witness for C6: a request whose issuer key-hash matches neither
configured issuer of the fixture. -/
theorem filter_issuer_matching_witness :
    ∃ e, e.isNotFound = true ∧ ∀ wrapped : Source,
      srcA.Response wrapped
          { HashAlgorithm := cryptoSHA1, IssuerNameHash := [10]
            IssuerKeyHash := [6, 6], SerialNumber := 5 }
        = (.error e, ["request_filtered"]) :=
  (filter_issuer_matching srcA
    { HashAlgorithm := cryptoSHA1, IssuerNameHash := [10]
      IssuerKeyHash := [6, 6], SerialNumber := 5 }).1 (by decide)

/-- Claim C7: every rejection produced by `checkRequest` wraps the not-found
sentinel (so it matches the not-found kind), while every error produced by
`checkResponse` is a plain error that does not match the not-found kind. -/
theorem filter_error_kinds :
    (∀ (src : filterSource) (req : OcspRequest) (e : GoErr),
        src.checkRequest req = .error e → e.isNotFound = true)
    ∧ (∀ (src : filterSource) (iss : Nat) (resp : Response) (e : GoErr),
        src.checkResponse iss resp = some e → e.isNotFound = false) := by
  constructor
  · exact checkRequest_error_isNotFound
  · intro src iss resp e h
    unfold filterSource.checkResponse at h
    split at h
    · exact (Option.some.inj h) ▸ rfl
    · split at h
      · exact (Option.some.inj h) ▸ rfl
      · exact absurd h (by simp)

/-- Witness for C7: the hash-algorithm rejection wraps not-found, the
responder-mismatch rejection does not. -/
theorem filter_error_kinds_witness :
    (GoErr.wrapf "unsupported issuer key/name hash algorithm"
        GoErr.errNotFound).isNotFound = true
    ∧ (GoErr.errorf "responder does not match requested issuer").isNotFound = false :=
  ⟨filter_error_kinds.1 srcA reqBadHash _ rfl,
   filter_error_kinds.2 srcA 1
     { ResponderKeyHash := [9, 9], SerialNumber := 5, Raw := [1, 2, 3] } _ rfl⟩

/-- Claim C8: the loader splits the file on whitespace, skips the empty
token, logs the malformed token's decode failure and continues, and keys the
map by decimal serial string: a file holding two valid tokens around one
malformed token yields a source answering exactly the two valid serials,
with one decode-failure log line and a reported count of 2. Stated for
every base64-decoder and OCSP-parser collaborator behaving as hypothesised
on the three tokens. -/
theorem memory_source_bulk_load
    (decode : String → Except String (List Nat))
    (parse : List Nat → Except String OcspResponse)
    (d1 d2 : List Nat) (r1 r2 : OcspResponse) (msg : String)
    (hdec1 : decode "AAAA" = .ok d1) (hpar1 : parse d1 = .ok r1)
    (hdec2 : decode "!!!" = .error msg)
    (hdec3 : decode "BBBB" = .ok d2) (hpar3 : parse d2 = .ok r2)
    (hser : toString r1.SerialNumber ≠ toString r2.SerialNumber) :
    (∀ req : OcspRequest, toString req.SerialNumber = toString r1.SerialNumber →
      (NewMemorySourceFromFile decode parse "AAAA\n!!! BBBB\n").1.Response req
        = .ok { toOcspResponse := r1, Raw := d1 })
    ∧ (∀ req : OcspRequest, toString req.SerialNumber = toString r2.SerialNumber →
      (NewMemorySourceFromFile decode parse "AAAA\n!!! BBBB\n").1.Response req
        = .ok { toOcspResponse := r2, Raw := d2 })
    ∧ (∀ req : OcspRequest, toString req.SerialNumber ≠ toString r1.SerialNumber →
        toString req.SerialNumber ≠ toString r2.SerialNumber →
      (NewMemorySourceFromFile decode parse "AAAA\n!!! BBBB\n").1.Response req
        = .error GoErr.errNotFound)
    ∧ (NewMemorySourceFromFile decode parse "AAAA\n!!! BBBB\n").2
        = [LogEvent.b64DecodeErr "!!!", LogEvent.readCount 2] := by
  have hsplit : splitWS "AAAA\n!!! BBBB\n" = ["AAAA", "!!!", "BBBB", ""] := by decide
  have hload : loadResponses decode parse [] [] ["AAAA", "!!!", "BBBB", ""]
      = ([(toString r1.SerialNumber, { toOcspResponse := r1, Raw := d1 }),
          (toString r2.SerialNumber, { toOcspResponse := r2, Raw := d2 })],
         [LogEvent.b64DecodeErr "!!!", LogEvent.readCount 2]) := by
    simp [loadResponses, hdec1, hpar1, hdec2, hdec3, hpar3, assocInsert, hser]
  refine ⟨?_, ?_, ?_, ?_⟩
  · intro req hreq
    simp [NewMemorySourceFromFile, NewMemorySource, hsplit, hload,
      InMemorySource.Response, assocFind, hreq]
  · intro req hreq
    simp [NewMemorySourceFromFile, NewMemorySource, hsplit, hload,
      InMemorySource.Response, assocFind, hreq, hser]
  · intro req hne1 hne2
    simp [NewMemorySourceFromFile, NewMemorySource, hsplit, hload,
      InMemorySource.Response, assocFind, Ne.symm hne1, Ne.symm hne2]
  · simp [NewMemorySourceFromFile, hsplit, hload]

/-- Witness for C8: concrete decoder/parser collaborators, the first valid
serial answered and the log line recorded. -/
theorem memory_source_bulk_load_witness :
    (NewMemorySourceFromFile decodeW parseW "AAAA\n!!! BBBB\n").1.Response reqSer12
      = .ok { ResponderKeyHash := [7, 7], SerialNumber := 12, Raw := [1] }
    ∧ (NewMemorySourceFromFile decodeW parseW "AAAA\n!!! BBBB\n").2
      = [LogEvent.b64DecodeErr "!!!", LogEvent.readCount 2] :=
  ⟨(memory_source_bulk_load decodeW parseW [1] [2]
      { ResponderKeyHash := [7, 7], SerialNumber := 12 }
      { ResponderKeyHash := [8, 8], SerialNumber := 34 }
      "illegal base64 data" rfl rfl rfl rfl rfl (by decide)).1 reqSer12 (by decide),
   (memory_source_bulk_load decodeW parseW [1] [2]
      { ResponderKeyHash := [7, 7], SerialNumber := 12 }
      { ResponderKeyHash := [8, 8], SerialNumber := 34 }
      "illegal base64 data" rfl rfl rfl rfl rfl (by decide)).2.2.2⟩

/-- Claim C9: `InMemorySource.Response` looks up purely by the request's
serial number in decimal string form — a present serial returns the stored
response with no error, an absent one returns the not-found sentinel, and
two requests sharing a serial number receive identical answers regardless
of their issuer name-hash, issuer key-hash and hash-algorithm fields. -/
theorem inMemory_response_serial_only (src : InMemorySource) (req : OcspRequest) :
    (∀ r, assocFind src.responses (toString req.SerialNumber) = some r →
      src.Response req = .ok r)
    ∧ (assocFind src.responses (toString req.SerialNumber) = none →
      src.Response req = .error GoErr.errNotFound)
    ∧ ∀ req2 : OcspRequest, req2.SerialNumber = req.SerialNumber →
      src.Response req2 = src.Response req := by
  refine ⟨?_, ?_, ?_⟩
  · intro r h
    simp [InMemorySource.Response, h]
  · intro h
    simp [InMemorySource.Response, h]
  · intro req2 h
    simp [InMemorySource.Response, h]

/-- Witness for C9: the one-entry fixture answers serial 12 with its stored
response. -/
theorem inMemory_response_serial_only_witness :
    srcM.Response reqSer12
      = .ok { ResponderKeyHash := [7, 7], SerialNumber := 12, Raw := [1] } :=
  (inMemory_response_serial_only srcM reqSer12).1
    { ResponderKeyHash := [7, 7], SerialNumber := 12, Raw := [1] } (by decide)

/-- Looking up a key in an appended association list prefers the first
part. -/
theorem assocFind_append {κ α : Type} [DecidableEq κ] (l1 l2 : List (κ × α)) (k : κ) :
    assocFind (l1 ++ l2) k
      = match assocFind l1 k with
        | some v => some v
        | none => assocFind l2 k := by
  induction l1 with
  | nil => rfl
  | cons hd tl ih =>
    obtain ⟨k1, v⟩ := hd
    rw [List.cons_append]
    by_cases h : k1 = k
    · simp [assocFind, h]
    · simp [assocFind, h, ih]

/-- Inserting a key makes it found with the inserted value. -/
theorem assocFind_assocInsert_self {κ α : Type} [DecidableEq κ]
    (m : List (κ × α)) (k : κ) (v : α) :
    assocFind (assocInsert m k v) k = some v := by
  induction m with
  | nil => simp [assocInsert, assocFind]
  | cons hd tl ih =>
    obtain ⟨k1, w⟩ := hd
    rw [assocInsert]
    by_cases h : k1 = k
    · simp [h, assocFind]
    · simp [h, assocFind, ih]

/-- Inserting one key leaves the lookup of any other key unchanged. -/
theorem assocFind_assocInsert_other {κ α : Type} [DecidableEq κ]
    (m : List (κ × α)) (k1 k : κ) (v : α) (hne : k1 ≠ k) :
    assocFind (assocInsert m k1 v) k = assocFind m k := by
  induction m with
  | nil => simp [assocInsert, assocFind, hne]
  | cons hd tl ih =>
    obtain ⟨k2, w⟩ := hd
    rw [assocInsert]
    by_cases h : k2 = k1
    · subst h
      simp [assocFind, hne]
    · rw [if_neg h]
      by_cases h2 : k2 = k
      · simp [assocFind, h2]
      · simp [assocFind, h2, ih]

/-- Inserting a key into a map that holds it at most once leaves exactly one
entry for it. -/
theorem countKey_assocInsert_self {κ α : Type} [DecidableEq κ]
    (m : List (κ × α)) (k : κ) (v : α) (hm : countKey m k ≤ 1) :
    countKey (assocInsert m k v) k = 1 := by
  induction m with
  | nil => simp [assocInsert, countKey]
  | cons hd tl ih =>
    obtain ⟨k1, w⟩ := hd
    rw [assocInsert]
    by_cases h : k1 = k
    · subst h
      rw [countKey, if_pos rfl] at hm
      rw [if_pos rfl, countKey, if_pos rfl]
      omega
    · rw [countKey, if_neg h] at hm
      rw [if_neg h, countKey, if_neg h]
      exact ih hm

/-- Inserting one key does not change how many entries bear another key. -/
theorem countKey_assocInsert_other {κ α : Type} [DecidableEq κ]
    (m : List (κ × α)) (k1 k : κ) (v : α) (hne : k1 ≠ k) :
    countKey (assocInsert m k1 v) k = countKey m k := by
  induction m with
  | nil => simp [assocInsert, countKey, hne]
  | cons hd tl ih =>
    obtain ⟨k2, w⟩ := hd
    rw [assocInsert]
    by_cases h : k2 = k1
    · subst h
      rw [if_pos rfl, countKey, if_neg hne, countKey, if_neg hne]
    · rw [if_neg h, countKey, countKey]
      by_cases h2 : k2 = k
      · rw [if_pos h2, if_pos h2, ih]
      · rw [if_neg h2, if_neg h2, ih]

/-- Folding overwrite-inserts over an entry sequence, starting from a map
holding a key at most once, leaves exactly one entry for every key the
sequence mentions and the starting count for every other key. -/
theorem countKey_foldl_assocInsert {κ α : Type} [DecidableEq κ]
    (entries : List (κ × α)) (k : κ) :
    ∀ m : List (κ × α), countKey m k ≤ 1 →
    countKey (List.foldl (fun m p => assocInsert m p.1 p.2) m entries) k
      = if 0 < countKey entries k then 1 else countKey m k := by
  induction entries with
  | nil =>
    intro m hm
    simp [countKey]
  | cons hd tl ih =>
    intro m hm
    obtain ⟨k1, v⟩ := hd
    simp only [List.foldl_cons]
    by_cases h : k1 = k
    · subst h
      have h1 : countKey (assocInsert m k1 v) k1 = 1 :=
        countKey_assocInsert_self m k1 v hm
      rw [ih (assocInsert m k1 v) (by rw [h1])]
      rw [h1]
      have hc : countKey ((k1, v) :: tl) k1 = countKey tl k1 + 1 := by
        rw [countKey, if_pos rfl]
      rw [hc, if_pos (Nat.succ_pos _)]
      by_cases h0 : 0 < countKey tl k1
      · rw [if_pos h0]
      · rw [if_neg h0]
    · have h1 : countKey (assocInsert m k1 v) k = countKey m k :=
        countKey_assocInsert_other m k1 k v h
      rw [ih (assocInsert m k1 v) (by rw [h1]; exact hm)]
      rw [h1]
      have hc : countKey ((k1, v) :: tl) k = countKey tl k := by
        rw [countKey, if_neg h]
      rw [hc]

/-- Folding overwrite-inserts over an entry sequence makes the lookup of a
key return the value of the sequence's last entry for it — the first hit
when the sequence is scanned in reverse — falling back to the starting
map. -/
theorem assocFind_foldl_assocInsert {κ α : Type} [DecidableEq κ]
    (entries : List (κ × α)) (k : κ) :
    ∀ m : List (κ × α),
    assocFind (List.foldl (fun m p => assocInsert m p.1 p.2) m entries) k
      = match assocFind entries.reverse k with
        | some v => some v
        | none => assocFind m k := by
  induction entries with
  | nil =>
    intro m
    rfl
  | cons hd tl ih =>
    intro m
    obtain ⟨k1, v⟩ := hd
    simp only [List.foldl_cons, List.reverse_cons]
    rw [ih (assocInsert m k1 v), assocFind_append]
    cases hr : assocFind tl.reverse k with
    | some w => rfl
    | none =>
      simp only []
      by_cases h : k1 = k
      · subst h
        rw [assocFind_assocInsert_self]
        simp [assocFind]
      · rw [assocFind_assocInsert_other m k1 k v h]
        simp [assocFind, h]

/-- Equation: the loader skips an empty token. -/
theorem loadResponses_cons_empty
    {decode : String → Except String (List Nat)}
    {parse : List Nat → Except String OcspResponse}
    {responses : List (String × Response)} {logs : List LogEvent}
    {rest : List String} :
    loadResponses decode parse responses logs ("" :: rest)
      = loadResponses decode parse responses logs rest := by
  rw [loadResponses, if_pos rfl]

/-- Equation: the loader logs a base64-decode failure and continues. -/
theorem loadResponses_cons_decode_error
    {decode : String → Except String (List Nat)}
    {parse : List Nat → Except String OcspResponse}
    {responses : List (String × Response)} {logs : List LogEvent}
    {b64 : String} {rest : List String} {msg : String}
    (hne : b64 ≠ "") (hdec : decode b64 = .error msg) :
    loadResponses decode parse responses logs (b64 :: rest)
      = loadResponses decode parse responses
          (logs ++ [LogEvent.b64DecodeErr b64]) rest := by
  rw [loadResponses, if_neg hne, hdec]

/-- Equation: the loader logs an OCSP-parse failure and continues. -/
theorem loadResponses_cons_parse_error
    {decode : String → Except String (List Nat)}
    {parse : List Nat → Except String OcspResponse}
    {responses : List (String × Response)} {logs : List LogEvent}
    {b64 : String} {rest : List String} {der : List Nat} {msg : String}
    (hne : b64 ≠ "") (hdec : decode b64 = .ok der) (hpar : parse der = .error msg) :
    loadResponses decode parse responses logs (b64 :: rest)
      = loadResponses decode parse responses
          (logs ++ [LogEvent.ocspDecodeErr b64]) rest := by
  rw [loadResponses, if_neg hne]
  simp only [hdec, hpar]

/-- Equation: the loader stores a successfully parsed token under its
serial's decimal string. -/
theorem loadResponses_cons_ok
    {decode : String → Except String (List Nat)}
    {parse : List Nat → Except String OcspResponse}
    {responses : List (String × Response)} {logs : List LogEvent}
    {b64 : String} {rest : List String} {der : List Nat} {response : OcspResponse}
    (hne : b64 ≠ "") (hdec : decode b64 = .ok der) (hpar : parse der = .ok response) :
    loadResponses decode parse responses logs (b64 :: rest)
      = loadResponses decode parse
          (assocInsert responses (toString response.SerialNumber)
            { toOcspResponse := response, Raw := der })
          logs rest := by
  rw [loadResponses, if_neg hne]
  simp only [hdec, hpar]

/-- Equation: an empty token yields no parsed entry. -/
theorem parsedEntries_cons_empty
    {decode : String → Except String (List Nat)}
    {parse : List Nat → Except String OcspResponse}
    {rest : List String} :
    parsedEntries decode parse ("" :: rest) = parsedEntries decode parse rest := by
  rw [parsedEntries, if_pos rfl]

/-- Equation: a token failing base64 decoding yields no parsed entry. -/
theorem parsedEntries_cons_decode_error
    {decode : String → Except String (List Nat)}
    {parse : List Nat → Except String OcspResponse}
    {b64 : String} {rest : List String} {msg : String}
    (hne : b64 ≠ "") (hdec : decode b64 = .error msg) :
    parsedEntries decode parse (b64 :: rest) = parsedEntries decode parse rest := by
  rw [parsedEntries, if_neg hne, hdec]

/-- Equation: a token failing OCSP parsing yields no parsed entry. -/
theorem parsedEntries_cons_parse_error
    {decode : String → Except String (List Nat)}
    {parse : List Nat → Except String OcspResponse}
    {b64 : String} {rest : List String} {der : List Nat} {msg : String}
    (hne : b64 ≠ "") (hdec : decode b64 = .ok der) (hpar : parse der = .error msg) :
    parsedEntries decode parse (b64 :: rest) = parsedEntries decode parse rest := by
  rw [parsedEntries, if_neg hne]
  simp only [hdec, hpar]

/-- Equation: a successfully parsed token contributes its keyed entry in
file order. -/
theorem parsedEntries_cons_ok
    {decode : String → Except String (List Nat)}
    {parse : List Nat → Except String OcspResponse}
    {b64 : String} {rest : List String} {der : List Nat} {response : OcspResponse}
    (hne : b64 ≠ "") (hdec : decode b64 = .ok der) (hpar : parse der = .ok response) :
    parsedEntries decode parse (b64 :: rest)
      = (toString response.SerialNumber, { toOcspResponse := response, Raw := der })
          :: parsedEntries decode parse rest := by
  rw [parsedEntries, if_neg hne]
  simp only [hdec, hpar]

/-- The loader's final map is the overwrite-insert fold of the successfully
parsed entry sequence over the starting map, whatever the logs. -/
theorem loadResponses_fst (decode : String → Except String (List Nat))
    (parse : List Nat → Except String OcspResponse) (tokens : List String) :
    ∀ (responses : List (String × Response)) (logs : List LogEvent),
    (loadResponses decode parse responses logs tokens).1
      = List.foldl (fun m p => assocInsert m p.1 p.2) responses
          (parsedEntries decode parse tokens) := by
  induction tokens with
  | nil =>
    intro responses logs
    rfl
  | cons b64 rest ih =>
    intro responses logs
    by_cases h : b64 = ""
    · subst h
      rw [loadResponses_cons_empty, parsedEntries_cons_empty]
      exact ih responses logs
    · cases hdec : decode b64 with
      | error msg =>
        rw [loadResponses_cons_decode_error h hdec,
          parsedEntries_cons_decode_error h hdec]
        exact ih responses _
      | ok der =>
        cases hpar : parse der with
        | error msg =>
          rw [loadResponses_cons_parse_error h hdec hpar,
            parsedEntries_cons_parse_error h hdec hpar]
          exact ih responses _
        | ok response =>
          rw [loadResponses_cons_ok h hdec hpar,
            parsedEntries_cons_ok h hdec hpar, List.foldl_cons]
          exact ih _ logs

/-- The loader's log stream ends with the count line reporting the final
map's size. -/
theorem loadResponses_snd (decode : String → Except String (List Nat))
    (parse : List Nat → Except String OcspResponse) (tokens : List String) :
    ∀ (responses : List (String × Response)) (logs : List LogEvent),
    ∃ logs0, (loadResponses decode parse responses logs tokens).2
      = logs0 ++ [LogEvent.readCount
          (loadResponses decode parse responses logs tokens).1.length] := by
  induction tokens with
  | nil =>
    intro responses logs
    exact ⟨logs, rfl⟩
  | cons b64 rest ih =>
    intro responses logs
    by_cases h : b64 = ""
    · subst h
      rw [loadResponses_cons_empty]
      exact ih responses logs
    · cases hdec : decode b64 with
      | error msg =>
        rw [loadResponses_cons_decode_error h hdec]
        exact ih responses _
      | ok der =>
        cases hpar : parse der with
        | error msg =>
          rw [loadResponses_cons_parse_error h hdec hpar]
          exact ih responses _
        | ok response =>
          rw [loadResponses_cons_ok h hdec hpar]
          exact ih _ logs

/-- Claim C10: for every bulk file, every base64-decoder and OCSP-parser
collaborator, and every serial number with two or more valid equal-serial
responses among the file's tokens (counted over the file-order sequence of
successfully parsed entries), the loaded source holds exactly one map entry
for that serial; that entry's lookup yields the response of the valid token
appearing last in file order (the first hit scanning the parsed entries in
reverse); `Response` answers every request for that serial with exactly
that response; and the reported count line carries the final map's size, to
which the duplicated serial contributes only its single entry. -/
theorem memory_source_duplicate_serial_last_wins
    (decode : String → Except String (List Nat))
    (parse : List Nat → Except String OcspResponse)
    (fileContents : String) (n : Nat)
    (hdup : 2 ≤ countKey (parsedEntries decode parse (splitWS fileContents))
        (toString n)) :
    countKey (NewMemorySourceFromFile decode parse fileContents).1.responses
        (toString n) = 1
    ∧ assocFind (NewMemorySourceFromFile decode parse fileContents).1.responses
        (toString n)
      = assocFind (parsedEntries decode parse (splitWS fileContents)).reverse
          (toString n)
    ∧ (∀ (v : Response) (req : OcspRequest),
        assocFind (parsedEntries decode parse (splitWS fileContents)).reverse
            (toString n) = some v →
        toString req.SerialNumber = toString n →
        (NewMemorySourceFromFile decode parse fileContents).1.Response req = .ok v)
    ∧ ∃ logs0, (NewMemorySourceFromFile decode parse fileContents).2
        = logs0 ++ [LogEvent.readCount
            (NewMemorySourceFromFile decode parse fileContents).1.responses.length] := by
  have hresp : (NewMemorySourceFromFile decode parse fileContents).1.responses
      = List.foldl (fun m p => assocInsert m p.1 p.2) []
          (parsedEntries decode parse (splitWS fileContents)) :=
    loadResponses_fst decode parse (splitWS fileContents) [] []
  have h2 : assocFind (NewMemorySourceFromFile decode parse fileContents).1.responses
      (toString n)
      = assocFind (parsedEntries decode parse (splitWS fileContents)).reverse
          (toString n) := by
    rw [hresp, assocFind_foldl_assocInsert]
    cases hr : assocFind (parsedEntries decode parse (splitWS fileContents)).reverse
        (toString n) with
    | some w => rfl
    | none => rfl
  refine ⟨?_, h2, ?_, ?_⟩
  · rw [hresp,
      countKey_foldl_assocInsert (parsedEntries decode parse (splitWS fileContents))
        (toString n) [] (by rw [countKey]; omega)]
    rw [if_pos (by omega)]
  · intro v req hlast hreq
    simp only [InMemorySource.Response, hreq, h2, hlast]
  · obtain ⟨logs0, hl⟩ := loadResponses_snd decode parse (splitWS fileContents) [] []
    exact ⟨logs0, hl⟩

/-- Witness for C10: the concrete file of two tokens both parsing to serial
12 (so the duplicate-count hypothesis reads two); only the second token's
response survives as the single entry and is the answer for serial 12. -/
theorem memory_source_duplicate_serial_last_wins_witness :
    countKey (NewMemorySourceFromFile decodeW parseDupW "AAAA BBBB").1.responses
        (toString (12 : Nat)) = 1
    ∧ (NewMemorySourceFromFile decodeW parseDupW "AAAA BBBB").1.Response reqSer12
      = .ok { ResponderKeyHash := [8, 8], SerialNumber := 12, Raw := [2] } :=
  ⟨(memory_source_duplicate_serial_last_wins decodeW parseDupW "AAAA BBBB" 12
      (by decide)).1,
   (memory_source_duplicate_serial_last_wins decodeW parseDupW "AAAA BBBB" 12
      (by decide)).2.2.1
     { ResponderKeyHash := [8, 8], SerialNumber := 12, Raw := [2] } reqSer12
     (by decide) (by decide)⟩

end Responder
